import Mathlib

/-!
Verification of the fault capture / decode / persist pipeline of
src/Ch09_Debugging/hardfaults.c (Cortex-M hard fault demonstration).

The embedding follows the source: machine words are Nat taken modulo 2^32
where overflow matters, the int32_t auxiliary field is Int, memory-mapped
registers are an explicit record passed to the handler, and the statically
located core dump region is explicit state threaded through the writer.
-/

/-- The exception frame pushed by hardware at trap entry, as laid out by
struct ContextStateFrame (source lines 251-260): r0-r3, r12, lr, the return
address and xPSR, each a 32-bit word. -/
structure sContextStateFrame where
  r0 : Nat
  r1 : Nat
  r2 : Nat
  r3 : Nat
  r12 : Nat
  lr : Nat
  return_address : Nat
  xpsr : Nat
  deriving DecidableEq, Repr

/-- COREDUMP_KEY (source line 282): the validity key stamped into the core
dump region; a stored region is trusted only when its key equals this. -/
def COREDUMP_KEY : Nat := 0xE0C2024

/-- The packed struct sCoreDump (source lines 283-293): key, cause, r0-r3,
returnAddress, stackPointer as 32-bit words and lastBattReading as a signed
32-bit integer, in declaration order. -/
structure sCoreDump where
  key : Nat
  cause : Nat
  r0 : Nat
  r1 : Nat
  r2 : Nat
  r3 : Nat
  returnAddress : Nat
  stackPointer : Nat
  lastBattReading : Int
  deriving DecidableEq, Repr

/-- All fields of a record fit their C types: the eight uint32_t fields are
below 2^32 and the int32_t field lies in [-2^31, 2^31). -/
def sCoreDump.WF (d : sCoreDump) : Prop :=
  d.key < 4294967296 ∧ d.cause < 4294967296 ∧ d.r0 < 4294967296 ∧
  d.r1 < 4294967296 ∧ d.r2 < 4294967296 ∧ d.r3 < 4294967296 ∧
  d.returnAddress < 4294967296 ∧ d.stackPointer < 4294967296 ∧
  -2147483648 ≤ d.lastBattReading ∧ d.lastBattReading < 2147483648

/-- my_fault_handler_c (source lines 299-320) as a transformer of the core
dump region: it stores COREDUMP_KEY into key, copies r0-r3 and the return
address from the frame, stores the frame xpsr word into stackPointer
(exactly as the source line 307 does), zeroes lastBattReading, and leaves
cause as it was (the source contains no assignment to coreDump.cause). -/
def my_fault_handler_c (frame : sContextStateFrame) (d : sCoreDump) : sCoreDump :=
  { d with
    key := COREDUMP_KEY
    r0 := frame.r0
    r1 := frame.r1
    r2 := frame.r2
    r3 := frame.r3
    returnAddress := frame.return_address
    stackPointer := frame.xpsr
    lastBattReading := 0 }

/-- The terminal decisions of the fault policy described in the spec:
continue execution, halt at a breakpoint, or reset. -/
inductive FaultDecision where
  | Continue
  | Halt
  | Reset
  deriving DecidableEq, Repr

/-- The complete run of my_fault_handler_c: the region write followed by the
terminal action. The source executes the breakpoint instruction BKPT #0
(line 312) unconditionally after the stores; it contains no test of any
debugger-present condition and no reset path, so the debuggerAttached
environment flag is never consulted. -/
def my_fault_handler_run (debuggerAttached : Bool) (frame : sContextStateFrame)
    (d : sCoreDump) : sCoreDump × FaultDecision :=
  (my_fault_handler_c frame d, FaultDecision.Halt)

/-- The memory-mapped fault status and fault address registers read by
hard_fault_handler_c (source lines 224-242): CFSR at 0xE000ED28, HFSR at
0xE000ED2C, DFSR at 0xE000ED30, AFSR at 0xE000ED3C, MMAR at 0xE000ED34 and
BFAR at 0xE000ED38. -/
structure FaultStatusRegs where
  CFSR : Nat
  HFSR : Nat
  DFSR : Nat
  AFSR : Nat
  MMAR : Nat
  BFAR : Nat
  deriving DecidableEq, Repr

/-- The state captured by hard_fault_handler_c into its volatile locals:
the eight stacked words and the six register copies. -/
structure HardFaultDecoded where
  stacked_r0 : Nat
  stacked_r1 : Nat
  stacked_r2 : Nat
  stacked_r3 : Nat
  stacked_r12 : Nat
  stacked_lr : Nat
  stacked_pc : Nat
  stacked_psr : Nat
  vCFSR : Nat
  vHFSR : Nat
  vDFSR : Nat
  vAFSR : Nat
  vBFAR : Nat
  vMMAR : Nat
  deriving DecidableEq, Repr

/-- hard_fault_handler_c (source lines 193-245): copies hardfault_args[0..7]
into the stacked_* locals and then reads CFSR, HFSR, DFSR, AFSR, MMAR and
BFAR. The source reads MMAR and BFAR unconditionally; no test of
MMARVALID or BFARVALID appears in the code (the comment at lines 236-238
only tells the reader to check them). -/
def hard_fault_handler_c (hardfault_args : List Nat) (regs : FaultStatusRegs) :
    HardFaultDecoded :=
  { stacked_r0 := hardfault_args.getD 0 0
    stacked_r1 := hardfault_args.getD 1 0
    stacked_r2 := hardfault_args.getD 2 0
    stacked_r3 := hardfault_args.getD 3 0
    stacked_r12 := hardfault_args.getD 4 0
    stacked_lr := hardfault_args.getD 5 0
    stacked_pc := hardfault_args.getD 6 0
    stacked_psr := hardfault_args.getD 7 0
    vCFSR := regs.CFSR
    vHFSR := regs.HFSR
    vDFSR := regs.DFSR
    vAFSR := regs.AFSR
    vBFAR := regs.BFAR
    vMMAR := regs.MMAR }

/-- MMARVALID: bit 7 of the CFSR, set when the MMAR holds a valid
memory-management fault address. -/
def MMARVALID (cfsr : Nat) : Bool := cfsr.testBit 7

/-- BFARVALID: bit 15 of the CFSR, set when the BFAR holds a valid bus
fault address. -/
def BFARVALID (cfsr : Nat) : Bool := cfsr.testBit 15

/-- HARDFAULT_HANDLING_ASM (source lines 262-269): tst lr, #4 sets the Z
flag when lr AND 4 is zero; mrseq then loads r0 from MSP, mrsne from PSP.
The NEW_HANLDER_1 entry stub (lines 177-191) computes the same selection.
Arguments are the hardware-saved lr and the two stack pointer values; the
result is the frame pointer placed in r0. -/
def HARDFAULT_HANDLING_ASM (lr msp psp : Nat) : Nat :=
  if lr &&& 4 = 0 then msp else psp

/-- HardFault_Handler (source lines 271-274): runs the entry asm and
branches to my_fault_handler_c with r0 (the selected frame pointer) as the
frame argument. Memory is modelled as a map from word addresses to the
frame stored there. -/
def HardFault_Handler (lr msp psp : Nat) (mem : Nat → sContextStateFrame)
    (d : sCoreDump) : sCoreDump :=
  my_fault_handler_c (mem (HARDFAULT_HANDLING_ASM lr msp psp)) d

/-- The little-endian byte image of a 32-bit word, least significant byte
first (the native order of the Cortex-M target). -/
def word32ToBytes (w : Nat) : List Nat :=
  [w % 256, w / 256 % 256, w / 65536 % 256, w / 16777216 % 256]

/-- Reassemble a 32-bit word from the first four bytes of a list,
little-endian. -/
def bytesToWord32 : List Nat → Nat
  | b0 :: b1 :: b2 :: b3 :: _ => b0 + 256 * b1 + 65536 * b2 + 16777216 * b3
  | [b0, b1, b2] => b0 + 256 * b1 + 65536 * b2
  | [b0, b1] => b0 + 256 * b1
  | [b0] => b0
  | [] => 0

/-- The 32-bit word stored at a given byte offset of a memory region. -/
def wordAt : List Nat → Nat → Nat
  | bs, 0 => bytesToWord32 bs
  | [], _ + 1 => 0
  | _ :: bs, n + 1 => wordAt bs n

/-- The 32-bit two-complement bit pattern of a signed value. -/
def i32encode (x : Int) : Nat := (x % 4294967296).toNat

/-- The signed value of a 32-bit two-complement bit pattern. -/
def i32decode (n : Nat) : Int :=
  if n < 2147483648 then (n : Int) else (n : Int) - 4294967296

/-- The 36-byte memory image of the packed struct sCoreDump (source lines
283-293): the nine fields in declaration order, four little-endian bytes
each, with no padding. One fixed function of the record, so the layout is
the same for every record written. -/
def serializeCoreDump (d : sCoreDump) : List Nat :=
  word32ToBytes d.key ++ word32ToBytes d.cause ++ word32ToBytes d.r0 ++
  word32ToBytes d.r1 ++ word32ToBytes d.r2 ++ word32ToBytes d.r3 ++
  word32ToBytes d.returnAddress ++ word32ToBytes d.stackPointer ++
  word32ToBytes (i32encode d.lastBattReading)

/-- The record stored in a region image: each field decoded from its byte
offset in the packed layout. -/
def decodeRegion (bytes : List Nat) : sCoreDump :=
  { key := wordAt bytes 0
    cause := wordAt bytes 4
    r0 := wordAt bytes 8
    r1 := wordAt bytes 12
    r2 := wordAt bytes 16
    r3 := wordAt bytes 20
    returnAddress := wordAt bytes 24
    stackPointer := wordAt bytes 28
    lastBattReading := i32decode (wordAt bytes 32) }

/-- Modelled from the spec: the boot-time read of the core dump store is
absent from src (only the region declaration at lines 283-293 and the
comment at lines 276-281 exist). Per section 4.3 of the spec, read
validates the key field first and returns absent if the key does not
match, otherwise the full record decoded from the region. -/
def CoreDumpStore.read (bytes : List Nat) : Option sCoreDump :=
  if wordAt bytes 0 = COREDUMP_KEY then some (decodeRegion bytes) else none

/-- Modelled from the spec: a record-level write of the core dump store is
absent from src (the only writer is my_fault_handler_c, which works from a
frame and stamps the key). Per section 4.3 of the spec, write
unconditionally overwrites the reserved region with the key, the
classification and the register copies of the record. -/
def CoreDumpStore.write (r : sCoreDump) : List Nat :=
  serializeCoreDump { r with key := COREDUMP_KEY }

/-- The fault categories of the spec error taxonomy relevant to the CFSR:
memory-protection, bus, usage and escalated/unknown. -/
inductive FaultCategory where
  | ProtectionFault
  | AccessFault
  | UndefinedInstructionFault
  | EscalatedFault
  deriving DecidableEq, Repr

/-- Modelled from the spec: no classification code exists in src (the
handler only captures the raw CFSR). Per section 4.2 of the spec and the
register layout in the source comments (lines 218-223), the CFSR
decomposes into MMFSR (bits 0-7), BFSR (bits 8-15) and UFSR (bits 16-31),
and the category is reported in priority order memory-protection > bus >
usage > escalated/unknown. -/
def classifyCFSR (cfsr : Nat) : FaultCategory :=
  if cfsr % 256 ≠ 0 then FaultCategory.ProtectionFault
  else if cfsr / 256 % 256 ≠ 0 then FaultCategory.AccessFault
  else if cfsr / 65536 % 65536 ≠ 0 then FaultCategory.UndefinedInstructionFault
  else FaultCategory.EscalatedFault

/-! Helper lemmas about the byte-level layout. -/

lemma bytesToWord32_word32ToBytes (w : Nat) :
    bytesToWord32 (word32ToBytes w) = w % 4294967296 := by
  simp [word32ToBytes, bytesToWord32]; omega

lemma i32decode_i32encode (x : Int) (h1 : -2147483648 ≤ x) (h2 : x < 2147483648) :
    i32decode (i32encode x) = x := by
  unfold i32encode i32decode
  split <;> omega

lemma i32encode_lt (x : Int) : i32encode x < 4294967296 := by
  unfold i32encode; omega

lemma sCoreDump.ext_eq (a b : sCoreDump) (h1 : a.key = b.key) (h2 : a.cause = b.cause)
    (h3 : a.r0 = b.r0) (h4 : a.r1 = b.r1) (h5 : a.r2 = b.r2) (h6 : a.r3 = b.r3)
    (h7 : a.returnAddress = b.returnAddress) (h8 : a.stackPointer = b.stackPointer)
    (h9 : a.lastBattReading = b.lastBattReading) : a = b := by
  cases a; cases b
  simp only [sCoreDump.mk.injEq]
  exact ⟨h1, h2, h3, h4, h5, h6, h7, h8, h9⟩

lemma wordAt_ser_0 (d : sCoreDump) :
    wordAt (serializeCoreDump d) 0 = bytesToWord32 (word32ToBytes d.key) := rfl

lemma wordAt_ser_4 (d : sCoreDump) :
    wordAt (serializeCoreDump d) 4 = bytesToWord32 (word32ToBytes d.cause) := rfl

lemma wordAt_ser_8 (d : sCoreDump) :
    wordAt (serializeCoreDump d) 8 = bytesToWord32 (word32ToBytes d.r0) := rfl

lemma wordAt_ser_12 (d : sCoreDump) :
    wordAt (serializeCoreDump d) 12 = bytesToWord32 (word32ToBytes d.r1) := rfl

lemma wordAt_ser_16 (d : sCoreDump) :
    wordAt (serializeCoreDump d) 16 = bytesToWord32 (word32ToBytes d.r2) := rfl

lemma wordAt_ser_20 (d : sCoreDump) :
    wordAt (serializeCoreDump d) 20 = bytesToWord32 (word32ToBytes d.r3) := rfl

lemma wordAt_ser_24 (d : sCoreDump) :
    wordAt (serializeCoreDump d) 24 = bytesToWord32 (word32ToBytes d.returnAddress) := rfl

lemma wordAt_ser_28 (d : sCoreDump) :
    wordAt (serializeCoreDump d) 28 = bytesToWord32 (word32ToBytes d.stackPointer) := rfl

lemma wordAt_ser_32 (d : sCoreDump) :
    wordAt (serializeCoreDump d) 32 =
      bytesToWord32 (word32ToBytes (i32encode d.lastBattReading)) := rfl

lemma decodeRegion_serializeCoreDump (d : sCoreDump) (h : d.WF) :
    decodeRegion (serializeCoreDump d) = d := by
  obtain ⟨hk, hc, h0, h1, h2, h3, hra, hsp, hlb1, hlb2⟩ := h
  apply sCoreDump.ext_eq <;>
    simp only [decodeRegion, wordAt_ser_0, wordAt_ser_4, wordAt_ser_8, wordAt_ser_12,
      wordAt_ser_16, wordAt_ser_20, wordAt_ser_24, wordAt_ser_28, wordAt_ser_32,
      bytesToWord32_word32ToBytes]
  · exact Nat.mod_eq_of_lt hk
  · exact Nat.mod_eq_of_lt hc
  · exact Nat.mod_eq_of_lt h0
  · exact Nat.mod_eq_of_lt h1
  · exact Nat.mod_eq_of_lt h2
  · exact Nat.mod_eq_of_lt h3
  · exact Nat.mod_eq_of_lt hra
  · exact Nat.mod_eq_of_lt hsp
  · rw [Nat.mod_eq_of_lt (i32encode_lt d.lastBattReading)]
    exact i32decode_i32encode d.lastBattReading hlb1 hlb2

/-! Claim theorems. -/

/-- C1: the write postcondition fails on the code. At a concrete frame with
xpsr = 0x01000000 and a prior region whose cause field holds the garbage
value 0xAAAA, my_fault_handler_c produces a record whose cause field is
still the prior garbage 0xAAAA (the source never assigns coreDump.cause,
so it does not equal any fault classification) and whose stackPointer
field is 0x01000000, the xPSR word of the frame, not the stack pointer at
fault time; key, r0-r3 and returnAddress are copied as claimed. -/
theorem fault_write_divergence :
    my_fault_handler_c ⟨1, 2, 3, 4, 5, 6, 7, 0x01000000⟩ ⟨0, 0xAAAA, 0, 0, 0, 0, 0, 0, 0⟩ =
      ⟨COREDUMP_KEY, 0xAAAA, 1, 2, 3, 4, 7, 0x01000000, 0⟩ := rfl

/-- C2: for every possible content of the reserved region, read returns
none whenever the key word stored at offset 0 differs from COREDUMP_KEY,
regardless of every other byte, and otherwise returns the full decoded
record. -/
theorem read_validates_key (bytes : List Nat) :
    (wordAt bytes 0 ≠ COREDUMP_KEY → CoreDumpStore.read bytes = none) ∧
    (wordAt bytes 0 = COREDUMP_KEY →
      CoreDumpStore.read bytes = some (decodeRegion bytes)) := by
  constructor <;> intro h <;> simp [CoreDumpStore.read, h]

/-- C2 witness: a zeroed region reads back as absent, and a region whose
first word is COREDUMP_KEY reads back as the full record. -/
theorem read_validates_key_witness :
    CoreDumpStore.read (List.replicate 36 0) = none ∧
    CoreDumpStore.read (CoreDumpStore.write ⟨COREDUMP_KEY, 1, 2, 3, 4, 5, 6, 7, 8⟩) =
      some (decodeRegion (CoreDumpStore.write ⟨COREDUMP_KEY, 1, 2, 3, 4, 5, 6, 7, 8⟩)) :=
  ⟨(read_validates_key (List.replicate 36 0)).1 (by decide),
   (read_validates_key (CoreDumpStore.write ⟨COREDUMP_KEY, 1, 2, 3, 4, 5, 6, 7, 8⟩)).2
     (by decide)⟩

/-- C3 counterexample: the round trip is not the identity for every record.
For the record whose key field is 0 the store stamps COREDUMP_KEY into the
region, so reading back yields a record whose key differs from the written
argument. -/
theorem roundtrip_key_counterexample :
    CoreDumpStore.read (CoreDumpStore.write ⟨0, 0, 0, 0, 0, 0, 0, 0, 0⟩) ≠
      some ⟨0, 0, 0, 0, 0, 0, 0, 0, 0⟩ := by decide

/-- C3 (amended): for every record whose fields fit their C types and whose
key already equals COREDUMP_KEY, writing it to the store and reading back
yields a record equal to it in every field. -/
theorem roundtrip_valid_key (r : sCoreDump) (hWF : r.WF)
    (hkey : r.key = COREDUMP_KEY) :
    CoreDumpStore.read (CoreDumpStore.write r) = some r := by
  have hstamp : { r with key := COREDUMP_KEY } = r := by
    rw [← hkey]
  unfold CoreDumpStore.write
  rw [hstamp]
  unfold CoreDumpStore.read
  rw [wordAt_ser_0, bytesToWord32_word32ToBytes, Nat.mod_eq_of_lt hWF.1, hkey,
    if_pos rfl, decodeRegion_serializeCoreDump r hWF]

/-- C3 witness: a concrete valid record round trips exactly. -/
theorem roundtrip_valid_key_witness :
    CoreDumpStore.read (CoreDumpStore.write ⟨COREDUMP_KEY, 1, 2, 3, 4, 5, 6, 7, -9⟩) =
      some ⟨COREDUMP_KEY, 1, 2, 3, 4, 5, 6, 7, -9⟩ :=
  roundtrip_valid_key ⟨COREDUMP_KEY, 1, 2, 3, 4, 5, 6, 7, -9⟩
    (by refine ⟨?_, ?_, ?_, ?_, ?_, ?_, ?_, ?_, ?_, ?_⟩ <;> decide) rfl

/-- C4: the code has no Reset path. With no debugger attached (environment
flag false) and an arbitrary concrete frame, the handler run still ends in
Halt at the breakpoint, which is not Reset: the source executes BKPT #0
unconditionally although its own comment at lines 310-311 says the
breakpoint should run if and only if a debugger is attached, and the reset
branch exists only as a comment (lines 314-320). -/
theorem no_reset_without_debugger :
    (my_fault_handler_run false ⟨0, 0, 0, 0, 0, 0, 0, 0⟩ ⟨0, 0, 0, 0, 0, 0, 0, 0, 0⟩).2 =
      FaultDecision.Halt ∧ FaultDecision.Halt ≠ FaultDecision.Reset := by decide

/-- C5: the decoder does not honour the validity bits. At a CFSR of 0 both
MMARVALID (bit 7) and BFARVALID (bit 15) are clear, yet
hard_fault_handler_c still captures the raw MMAR and BFAR register
contents into its decoded state instead of reporting the addresses as not
available. -/
theorem raw_fault_address_captured :
    MMARVALID 0 = false ∧ BFARVALID 0 = false ∧
    (hard_fault_handler_c [1, 2, 3, 4, 5, 6, 7, 8]
      ⟨0, 0, 0, 0, 0xDEADBEEF, 0xCAFEBABE⟩).vMMAR = 0xDEADBEEF ∧
    (hard_fault_handler_c [1, 2, 3, 4, 5, 6, 7, 8]
      ⟨0, 0, 0, 0, 0xDEADBEEF, 0xCAFEBABE⟩).vBFAR = 0xCAFEBABE := by decide

/-- C6: whenever some memory-management sub-status bit (CFSR bits 0-7) and
some bus sub-status bit (CFSR bits 8-15) are both set, the classification
is ProtectionFault and never AccessFault, following the priority order
memory-protection > bus > usage > escalated. -/
theorem classify_priority_tiebreak (cfsr i j : Nat) (hi : i < 8) (hj1 : 8 ≤ j)
    (hj2 : j < 16) (hmm : cfsr.testBit i = true) (hbus : cfsr.testBit j = true) :
    classifyCFSR cfsr = FaultCategory.ProtectionFault ∧
    classifyCFSR cfsr ≠ FaultCategory.AccessFault := by
  have h256 : cfsr % 256 ≠ 0 := by
    intro h0
    have hbit : (cfsr % 2 ^ 8).testBit i = (decide (i < 8) && cfsr.testBit i) :=
      Nat.testBit_mod_two_pow cfsr 8 i
    rw [show (2 : Nat) ^ 8 = 256 from rfl, h0] at hbit
    simp [hi, hmm, Nat.zero_testBit] at hbit
  constructor
  · unfold classifyCFSR; simp [h256]
  · unfold classifyCFSR; simp [h256]

/-- C6 witness: CFSR = 0x102 has bit 1 (a memory-management sub-status bit)
and bit 8 (a bus sub-status bit) set, and classifies as ProtectionFault. -/
theorem classify_priority_tiebreak_witness :
    classifyCFSR 0x102 = FaultCategory.ProtectionFault ∧
    classifyCFSR 0x102 ≠ FaultCategory.AccessFault :=
  classify_priority_tiebreak 0x102 1 8 (by decide) (by decide) (by decide)
    (by decide) (by decide)

/-- C7: the entry trampoline selects the frame pointer from bit 2 (value 4)
of the hardware-saved lr: clear selects MSP, set selects PSP, and
HardFault_Handler hands exactly the frame at the selected pointer to
my_fault_handler_c. -/
theorem stack_select_bit2 (lr msp psp : Nat) (mem : Nat → sContextStateFrame)
    (d : sCoreDump) :
    HARDFAULT_HANDLING_ASM lr msp psp = (if lr.testBit 2 then psp else msp) ∧
    HardFault_Handler lr msp psp mem d =
      my_fault_handler_c (mem (if lr.testBit 2 then psp else msp)) d := by
  have h4 : lr &&& 4 = (lr.testBit 2).toNat * 4 := by
    have := Nat.and_two_pow lr 2
    norm_num at this
    exact this
  have hsel : HARDFAULT_HANDLING_ASM lr msp psp = (if lr.testBit 2 then psp else msp) := by
    unfold HARDFAULT_HANDLING_ASM
    cases h : lr.testBit 2 <;> simp [h4, h]
  exact ⟨hsel, by unfold HardFault_Handler; rw [hsel]⟩

/-- C8: the byte image of a record is exactly 36 bytes, and each field sits
at its fixed offset in declaration order with no padding: key at 0, cause
at 4, r0-r3 at 8, 12, 16, 20, returnAddress at 24, stackPointer at 28 and
the auxiliary lastBattReading at 32, each 4 bytes in the target native
byte order; the layout function is the same for every record. -/
theorem coredump_record_layout (d : sCoreDump) (h : d.WF) :
    (serializeCoreDump d).length = 36 ∧
    wordAt (serializeCoreDump d) 0 = d.key ∧
    wordAt (serializeCoreDump d) 4 = d.cause ∧
    wordAt (serializeCoreDump d) 8 = d.r0 ∧
    wordAt (serializeCoreDump d) 12 = d.r1 ∧
    wordAt (serializeCoreDump d) 16 = d.r2 ∧
    wordAt (serializeCoreDump d) 20 = d.r3 ∧
    wordAt (serializeCoreDump d) 24 = d.returnAddress ∧
    wordAt (serializeCoreDump d) 28 = d.stackPointer ∧
    i32decode (wordAt (serializeCoreDump d) 32) = d.lastBattReading := by
  obtain ⟨hk, hc, h0, h1, h2, h3, hra, hsp, hlb1, hlb2⟩ := h
  refine ⟨rfl, ?_, ?_, ?_, ?_, ?_, ?_, ?_, ?_, ?_⟩
  · rw [wordAt_ser_0, bytesToWord32_word32ToBytes]; exact Nat.mod_eq_of_lt hk
  · rw [wordAt_ser_4, bytesToWord32_word32ToBytes]; exact Nat.mod_eq_of_lt hc
  · rw [wordAt_ser_8, bytesToWord32_word32ToBytes]; exact Nat.mod_eq_of_lt h0
  · rw [wordAt_ser_12, bytesToWord32_word32ToBytes]; exact Nat.mod_eq_of_lt h1
  · rw [wordAt_ser_16, bytesToWord32_word32ToBytes]; exact Nat.mod_eq_of_lt h2
  · rw [wordAt_ser_20, bytesToWord32_word32ToBytes]; exact Nat.mod_eq_of_lt h3
  · rw [wordAt_ser_24, bytesToWord32_word32ToBytes]; exact Nat.mod_eq_of_lt hra
  · rw [wordAt_ser_28, bytesToWord32_word32ToBytes]; exact Nat.mod_eq_of_lt hsp
  · rw [wordAt_ser_32, bytesToWord32_word32ToBytes,
      Nat.mod_eq_of_lt (i32encode_lt d.lastBattReading)]
    exact i32decode_i32encode d.lastBattReading hlb1 hlb2

/-- C8 witness: the layout contract evaluated on a concrete record. -/
theorem coredump_record_layout_witness :
    (serializeCoreDump ⟨0xE0C2024, 1, 2, 3, 4, 5, 6, 7, -9⟩).length = 36 ∧
    wordAt (serializeCoreDump ⟨0xE0C2024, 1, 2, 3, 4, 5, 6, 7, -9⟩) 0 = 0xE0C2024 ∧
    wordAt (serializeCoreDump ⟨0xE0C2024, 1, 2, 3, 4, 5, 6, 7, -9⟩) 4 = 1 ∧
    wordAt (serializeCoreDump ⟨0xE0C2024, 1, 2, 3, 4, 5, 6, 7, -9⟩) 8 = 2 ∧
    wordAt (serializeCoreDump ⟨0xE0C2024, 1, 2, 3, 4, 5, 6, 7, -9⟩) 12 = 3 ∧
    wordAt (serializeCoreDump ⟨0xE0C2024, 1, 2, 3, 4, 5, 6, 7, -9⟩) 16 = 4 ∧
    wordAt (serializeCoreDump ⟨0xE0C2024, 1, 2, 3, 4, 5, 6, 7, -9⟩) 20 = 5 ∧
    wordAt (serializeCoreDump ⟨0xE0C2024, 1, 2, 3, 4, 5, 6, 7, -9⟩) 24 = 6 ∧
    wordAt (serializeCoreDump ⟨0xE0C2024, 1, 2, 3, 4, 5, 6, 7, -9⟩) 28 = 7 ∧
    i32decode (wordAt (serializeCoreDump ⟨0xE0C2024, 1, 2, 3, 4, 5, 6, 7, -9⟩) 32) = -9 :=
  coredump_record_layout ⟨0xE0C2024, 1, 2, 3, 4, 5, 6, 7, -9⟩
    (by refine ⟨?_, ?_, ?_, ?_, ?_, ?_, ?_, ?_, ?_, ?_⟩ <;> decide)

/-- C9: for every frame and every prior region content, and whether or not
a debugger is attached, the run of my_fault_handler_c first persists the
record and then reaches the breakpoint: the terminal action is always the
BKPT halt, independent of the debugger-present flag, which the source
never checks. -/
theorem bkpt_unconditional (dbg : Bool) (frame : sContextStateFrame) (d : sCoreDump) :
    my_fault_handler_run dbg frame d = (my_fault_handler_c frame d, FaultDecision.Halt) := rfl

/-- C10: for every frame and every prior region content, my_fault_handler_c
stores the constant 0 into the lastBattReading field, overwriting whatever
auxiliary value was there before. -/
theorem lastBattReading_zeroed (frame : sContextStateFrame) (d : sCoreDump) :
    (my_fault_handler_c frame d).lastBattReading = 0 := rfl
